import Mathlib

set_option maxHeartbeats 1000000

/-!
Verification of the lambda ETL pipeline in `lambda_src/handler.py`.

Python strings are modelled as `List Char` (sequences of code points, so
slicing and length coincide with Python's character-based semantics).
JSON-like dynamic values are modelled by `JValue`; Python exceptions by
`Except PyError`.  Wall-clock timestamps (`datetime.now(...)`) are supplied
as explicit parameters, one pair per transformed record.
-/

abbrev PyStr := List Char

/-- A JSON-like dynamically typed value, as produced by `json.loads`.
`bool` is kept as its own constructor; Python's `isinstance (_, int)`
nevertheless accepts it (bool is a subclass of int), see `isStrIntB`. -/
inductive JValue where
  | str (s : PyStr)
  | int (n : Int)
  | bool (b : Bool)
  | null
  | arr (elems : List JValue)
  | obj (fields : List (PyStr × JValue))

/-- The Python exceptions the handler's record-processing code can raise. -/
inductive PyError where
  | typeError
  | keyError
  | attributeError
  deriving DecidableEq

/-- Python `str(True) / str(False)`. -/
def boolStr (b : Bool) : PyStr := if b then "True".toList else "False".toList

/-- Decimal digits of a natural number, most significant first
(fuel-indexed so it reduces definitionally; `natStr` supplies enough fuel). -/
def natDigitsAux : Nat → Nat → List Char
  | 0, _ => []
  | fuel+1, n =>
    if n < 10 then [Nat.digitChar n]
    else natDigitsAux fuel (n / 10) ++ [Nat.digitChar (n % 10)]

/-- Python `str` of a nonnegative integer. -/
def natStr (n : Nat) : PyStr := natDigitsAux (n+1) n

/-- Python `str` of an integer. -/
def intStr (n : Int) : PyStr :=
  if n < 0 then '-' :: natStr n.natAbs else natStr n.toNat

/-- Python `str(v)`.  Containers never pass `validate_item`, so
`transform_item` never stringifies one on an accepted record; their
Python repr is elided to a fixed marker here. -/
def pyStr : JValue → PyStr
  | .str s => s
  | .int n => intStr n
  | .bool b => boolStr b
  | .null => "None".toList
  | .arr _ => "[...]".toList
  | .obj _ => "\x7b...\x7d".toList

/-- Characters removed by Python's `str.strip()`. -/
def isPySpace (c : Char) : Bool :=
  c == ' ' || c == '\t' || c == '\n' || c == '\r' || c == '\x0b' || c == '\x0c'

/-- Python `s.strip()`: drop whitespace from both ends. -/
def pyStrip (s : PyStr) : PyStr :=
  ((s.dropWhile isPySpace).reverse.dropWhile isPySpace).reverse

/-- Key lookup in a dict's field list. -/
def lookupField (fs : List (PyStr × JValue)) (k : PyStr) : Option JValue :=
  match fs with
  | [] => none
  | (k', v) :: rest => if k' == k then some v else lookupField rest k

/-- `dict[k]` for a key known to be present, `None` otherwise
(used only under that presence guarantee, via `mkRec`). -/
def getF (fs : List (PyStr × JValue)) (k : PyStr) : JValue :=
  (lookupField fs k).getD .null

/-- Python `k in s` for strings: contiguous-substring test. -/
def substrB (k : PyStr) : PyStr → Bool
  | [] => k.isEmpty
  | c :: rest => List.isPrefixOf k (c :: rest) || substrB k rest

/-- Python `k in item`: key test for dicts, substring test for strings,
membership for lists; `TypeError` for non-iterables (int, bool, None). -/
def pyIn (k : PyStr) (item : JValue) : Except PyError Bool :=
  match item with
  | .obj fs => .ok (lookupField fs k).isSome
  | .str s => .ok (substrB k s)
  | .arr xs => .ok (xs.any fun v => match v with | .str s => s == k | _ => false)
  | _ => .error .typeError

/-- Python `item.get(k)`: only dicts have `.get`; anything else raises
`AttributeError`.  This runs inside the diagnostic `log(..., item_id=item.get("id"))`. -/
def pyDictGet (item : JValue) (k : PyStr) : Except PyError JValue :=
  match item with
  | .obj fs => .ok ((lookupField fs k).getD .null)
  | _ => .error .attributeError

/-- Python `item[k]` with a string key: dict lookup (`KeyError` when absent);
`TypeError` on strings, lists, and non-subscriptables. -/
def pySubscript (item : JValue) (k : PyStr) : Except PyError JValue :=
  match item with
  | .obj fs =>
    match lookupField fs k with
    | some v => .ok v
    | none => .error .keyError
  | _ => .error .typeError

/-- Python `isinstance(v, (str, int))`.  A Python `bool` is a subclass of
`int`, so booleans pass this check. -/
def isStrIntB : JValue → Bool
  | .str _ => true
  | .int _ => true
  | .bool _ => true
  | _ => false

/-- The tuple `("id", "title", "body", "userId")` from `validate_item`. -/
def requiredFields : List PyStr :=
  ["id".toList, "title".toList, "body".toList, "userId".toList]

/-- The field loop of `validate_item`: for each required field, check
presence (`field not in item` evaluates the diagnostic `item.get("id")`
before returning `False`) and then the `isinstance` type check. -/
def validateFields (item : JValue) : List PyStr → Except PyError Bool
  | [] => .ok true
  | f :: rest =>
    match pyIn f item with
    | .error e => .error e
    | .ok c =>
      if c then
        match pySubscript item f with
        | .error e => .error e
        | .ok v =>
          if isStrIntB v then validateFields item rest
          else
            match pyDictGet item ("id".toList) with
            | .error e => .error e
            | .ok _ => .ok false
      else
        match pyDictGet item ("id".toList) with
        | .error e => .error e
        | .ok _ => .ok false

/-- `validate_item` from handler.py. -/
def validate_item (item : JValue) : Except PyError Bool :=
  validateFields item requiredFields

/-- `EXTERNAL_API_URL` default from handler.py. -/
def API_URL : PyStr := "https://jsonplaceholder.typicode.com/posts".toList

/-- `DYNAMODB_TABLE_NAME` default from handler.py. -/
def TABLE_NAME : PyStr := "iac-data-store".toList

/-- The DynamoDB target format built by `transform_item`. -/
structure NormalizedRecord where
  id : PyStr
  timestamp : PyStr
  title : PyStr
  body : PyStr
  user_id : PyStr
  source_url : PyStr
  processed_at : PyStr
  deriving DecidableEq

/-- `transform_item` from handler.py; `t1`/`t2` are the two
`datetime.now(timezone.utc).isoformat()` results (sort key and
`processed_at`).  Subscripts are evaluated in the dict-literal order
id, title, body, userId. -/
def transform_item (t1 t2 : PyStr) (item : JValue) : Except PyError NormalizedRecord :=
  match pySubscript item ("id".toList) with
  | .error e => .error e
  | .ok idv =>
    match pySubscript item ("title".toList) with
    | .error e => .error e
    | .ok titlev =>
      match pySubscript item ("body".toList) with
      | .error e => .error e
      | .ok bodyv =>
        match pySubscript item ("userId".toList) with
        | .error e => .error e
        | .ok uidv =>
          .ok { id := pyStr idv
                timestamp := t1
                title := (pyStrip (pyStr titlev)).take 500
                body := (pyStrip (pyStr bodyv)).take 2000
                user_id := pyStr uidv
                source_url := API_URL
                processed_at := t2 }

/-- The loop of `process_data`: validate each record, transform the valid
ones (fresh timestamps per record, supplied by `ts` at the record's input
position), count the invalid ones. -/
def process_go (ts : Nat → PyStr × PyStr) :
    Nat → List JValue → List NormalizedRecord → Nat →
    Except PyError (List NormalizedRecord × Nat)
  | _, [], acc, inv => .ok (acc.reverse, inv)
  | i, item :: rest, acc, inv =>
    match validate_item item with
    | .error e => .error e
    | .ok true =>
      match transform_item (ts i).1 (ts i).2 item with
      | .error e => .error e
      | .ok r => process_go ts (i+1) rest (r :: acc) inv
    | .ok false => process_go ts (i+1) rest acc (inv + 1)

/-- `process_data` from handler.py.  The pair is the returned `valid` list
together with the `invalid` counter the function maintains and logs. -/
def process_data (ts : Nat → PyStr × PyStr) (raw : List JValue) :
    Except PyError (List NormalizedRecord × Nat) :=
  process_go ts 0 raw [] 0

/-- Whether a `JValue` is a dict. -/
def isObjB : JValue → Bool
  | .obj _ => true
  | _ => false

/-- The per-field condition `validate_item` checks on a dict:
present, and of type str/int (bool included). -/
def fieldOk (fs : List (PyStr × JValue)) (f : PyStr) : Bool :=
  match lookupField fs f with
  | some v => isStrIntB v
  | none => false

/-- All required fields pass `fieldOk`. -/
def allOk (fs : List (PyStr × JValue)) : Bool :=
  requiredFields.all (fieldOk fs)

/-- The record `transform_item` builds from a dict whose required fields
are all present (specification-side restatement used in lemmas). -/
def mkRec (t1 t2 : PyStr) (fs : List (PyStr × JValue)) : NormalizedRecord :=
  { id := pyStr (getF fs ("id".toList))
    timestamp := t1
    title := (pyStrip (pyStr (getF fs ("title".toList)))).take 500
    body := (pyStrip (pyStr (getF fs ("body".toList)))).take 2000
    user_id := pyStr (getF fs ("userId".toList))
    source_url := API_URL
    processed_at := t2 }

/-- The accepted output of the processing loop on an all-dict input,
starting at input position `i`. -/
def acceptedOf (ts : Nat → PyStr × PyStr) : Nat → List JValue → List NormalizedRecord
  | _, [] => []
  | i, JValue.obj fs :: rest =>
    if allOk fs then mkRec (ts i).1 (ts i).2 fs :: acceptedOf ts (i+1) rest
    else acceptedOf ts (i+1) rest
  | i, _ :: rest => acceptedOf ts (i+1) rest

/-- The rejected count of the processing loop on an all-dict input. -/
def rejectedOf : List JValue → Nat
  | [] => 0
  | JValue.obj fs :: rest => (if allOk fs then 0 else 1) + rejectedOf rest
  | _ :: rest => rejectedOf rest

/-- The error recorded in `last_error` by `fetch_data`: an
`urllib.error.HTTPError` (status code and reason) or another exception
(network error, caught by the generic `except`). -/
inductive FetchErr where
  | http (code : Nat) (reason : PyStr)
  | net (msg : PyStr)
  deriving DecidableEq

/-- What one fetch attempt observes from the environment:
`resp` — `urlopen` returned a response object (status, optional parsed
`Retry-After` header, parsed JSON-array body); `httpError` — `urlopen`
raised `HTTPError` (the exception object also carries the response
headers, including any `Retry-After`, which the handler never reads);
`netError` — any other exception inside the `try` block. -/
inductive AttemptOutcome where
  | resp (status : Nat) (retryAfter : Option Int) (body : List JValue)
  | httpError (code : Nat) (retryAfter : Option Int) (reason : PyStr)
  | netError (msg : PyStr)

/-- Result of one iteration of the fetch loop: return the records, or
sleep `wait` seconds and continue with the given `last_error`. -/
inductive StepResult where
  | done (records : List JValue)
  | retry (wait : Int) (lastError : Option FetchErr)

/-- One iteration of the `for attempt in range(1, MAX_RETRIES + 1)` loop
of `fetch_data` (handler.py lines 68-100):
in-band status 429 sleeps `int(resp.headers.get("Retry-After", 5))` and
leaves `last_error` unchanged; any other in-band status returns the body;
`HTTPError` sets `last_error` and sleeps `2 ** attempt` in both its 429
and non-429 branches (which differ only in the log line); any other
exception sets `last_error` and sleeps `2 ** attempt`. -/
def fetch_step (attempt : Nat) (lastError : Option FetchErr) (o : AttemptOutcome) : StepResult :=
  match o with
  | .resp status retryAfter body =>
    if status == 429 then .retry (retryAfter.getD 5) lastError
    else .done body
  | .httpError code _retryAfter reason =>
    if code == 429 then .retry ((2 : Int) ^ attempt) (some (.http code reason))
    else .retry ((2 : Int) ^ attempt) (some (.http code reason))
  | .netError msg => .retry ((2 : Int) ^ attempt) (some (.net msg))

/-- Outcome of the whole fetch loop: the parsed records with the number of
attempts used and the sleeps performed, or exhaustion after `attempts`
attempts carrying `last_error` (the `RuntimeError` raised at line 102). -/
inductive FetchResult where
  | success (records : List JValue) (attemptsUsed : Nat) (waits : List Int)
  | exhausted (attempts : Nat) (lastError : Option FetchErr)

/-- The fetch loop, counting down the remaining attempts;
`oc a` is what attempt number `a` observes. -/
def fetch_go (oc : Nat → AttemptOutcome) (maxRetries : Nat) :
    Nat → Nat → Option FetchErr → List Int → FetchResult
  | 0, _, lastErr, _ => .exhausted maxRetries lastErr
  | remaining+1, attempt, lastErr, waits =>
    match fetch_step attempt lastErr (oc attempt) with
    | .done recs => .success recs attempt waits.reverse
    | .retry w e => fetch_go oc maxRetries remaining (attempt+1) e (w :: waits)

/-- `fetch_data` from handler.py, over an environment `oc` of per-attempt
observations. -/
def fetch_data (maxRetries : Nat) (oc : Nat → AttemptOutcome) : FetchResult :=
  fetch_go oc maxRetries maxRetries 1 none []

/-- The error an attempt outcome records into `last_error`
(`none` for any in-band response, including in-band 429). -/
def errOf : AttemptOutcome → Option FetchErr
  | .resp _ _ _ => none
  | .httpError code _ reason => some (.http code reason)
  | .netError msg => some (.net msg)

/-- Whether an attempt outcome makes the loop continue (true for
everything except an in-band non-429 response, which returns). -/
def stepRetries : AttemptOutcome → Bool
  | .resp status _ _ => status == 429
  | _ => true

/-- `last_error` update performed by one loop iteration. -/
def updErr (e : Option FetchErr) (o : AttemptOutcome) : Option FetchErr :=
  match errOf o with
  | some x => some x
  | none => e

/-- `last_error` accumulated over attempts `j, j+1, ..., j+r-1`
starting from `e`. -/
def errAccum (oc : Nat → AttemptOutcome) : Option FetchErr → Nat → Nat → Option FetchErr
  | e, _, 0 => e
  | e, j, r+1 => errAccum oc (updErr e (oc j)) (j+1) r

/-- The sleep one loop iteration performs at attempt `a`
when the outcome makes it continue. -/
def waitOf (a : Nat) : AttemptOutcome → Int
  | .resp _ retryAfter _ => retryAfter.getD 5
  | _ => (2 : Int) ^ a

/-- The result envelope of `lambda_handler`, flattening the JSON body
(`message`, optional `stored`, optional `error`); duration is wall-clock
and not modelled. -/
structure LambdaResponse where
  statusCode : Nat
  message : PyStr
  stored : Option Nat
  errMsg : Option PyStr
  deriving DecidableEq

/-- `store_data`: counts one `put_item` per record (chunking into batches
of 25 happens inside the `batch_writer` collaborator). -/
def store_data (items : List NormalizedRecord) : Nat := items.length

/-- `str(exc)` for the Python exceptions of record processing. -/
def pyErrStr : PyError → PyStr
  | .typeError => "TypeError".toList
  | .keyError => "KeyError".toList
  | .attributeError => "AttributeError".toList

/-- `str(exc)` of an `HTTPError` / other fetch exception. -/
def fetchErrStr : FetchErr → PyStr
  | .http code reason => "HTTP Error ".toList ++ natStr code ++ (':' :: ' ' :: reason)
  | .net msg => msg

/-- `str(last_error)` with `str(None) = "None"`. -/
def optErrStr : Option FetchErr → PyStr
  | none => "None".toList
  | some e => fetchErrStr e

/-- The `RuntimeError` message of fetch exhaustion (handler.py line 102). -/
def fetchFailMsg (n : Nat) (e : Option FetchErr) : PyStr :=
  "Fetch failed after ".toList ++ natStr n ++ " attempts: ".toList ++ optErrStr e

/-- The `ValueError` message for an empty accepted batch (handler.py line 202). -/
def noValidMsg : PyStr := "No valid records after validation".toList

/-- The health-check failure message (handler.py line 194). -/
def tableUnavailableMsg : PyStr :=
  "DynamoDB table '".toList ++ TABLE_NAME ++ "' is not available".toList

/-- `lambda_handler` from handler.py.  `healthOk` is the health-check
outcome, `oc` the fetch environment, `ts` the per-record transform
timestamps.  The second component records whether `store_data` was
invoked during the run. -/
def lambda_handler (maxRetries : Nat) (healthOk : Bool) (oc : Nat → AttemptOutcome)
    (ts : Nat → PyStr × PyStr) : LambdaResponse × Bool :=
  if healthOk then
    match fetch_data maxRetries oc with
    | .exhausted n e =>
      ({ statusCode := 500, message := "ERROR".toList, stored := none,
         errMsg := some (fetchFailMsg n e) }, false)
    | .success raw _ _ =>
      match process_data ts raw with
      | .error e =>
        ({ statusCode := 500, message := "ERROR".toList, stored := none,
           errMsg := some (pyErrStr e) }, false)
      | .ok (valid, _) =>
        if valid.isEmpty then
          ({ statusCode := 500, message := "ERROR".toList, stored := none,
             errMsg := some noValidMsg }, false)
        else
          ({ statusCode := 200, message := "OK".toList, stored := some (store_data valid),
             errMsg := none }, true)
  else
    ({ statusCode := 500, message := "ERROR".toList, stored := none,
       errMsg := some tableUnavailableMsg }, false)

/-! ### Concrete fixtures used by witnesses and counterexamples -/

/-- A fixed timestamp supply: every transform gets sort key "T" and
processed-at "P". -/
def ts0 : Nat → PyStr × PyStr := fun _ => ("T".toList, "P".toList)

/-- Claim C8, counterexample environment: attempt 1 hits a network error,
attempts 2 and 3 hit 429s raised as `HTTPError`. -/
def oc8c : Nat → AttemptOutcome
  | 1 => .netError ("boom".toList)
  | _ => .httpError 429 none ("Too Many Requests".toList)

/-- Claim C8, witness environment: network error, then an `HTTPError` 429,
then an in-band 429. -/
def oc8w : Nat → AttemptOutcome
  | 1 => .netError ("boom".toList)
  | 2 => .httpError 429 (some 7) ("Too Many".toList)
  | _ => .resp 429 none []

/-- A well-formed raw record: all required fields present with str/int values. -/
def goodRec : JValue :=
  .obj [("id".toList, .int 1), ("title".toList, .str ("hello".toList)),
        ("body".toList, .str ("world".toList)), ("userId".toList, .int 9)]

/-- An all-dict batch with one valid and one malformed record. -/
def rawW3 : List JValue := [goodRec, JValue.obj []]

/-- A record whose `id` field is the empty string: it passes validation. -/
def recEmptyId : JValue :=
  .obj [("id".toList, .str []), ("title".toList, .str ("t".toList)),
        ("body".toList, .str ("b".toList)), ("userId".toList, .int 7)]

/-- The normalized record `process_data` produces from `recEmptyId`. -/
def c4rec : NormalizedRecord :=
  { id := [], timestamp := "T".toList, title := "t".toList, body := "b".toList,
    user_id := "7".toList, source_url := API_URL, processed_at := "P".toList }

/-- Claim C4, witness output for `goodRec`. -/
def c4wrec : NormalizedRecord :=
  { id := "1".toList, timestamp := "T".toList, title := "hello".toList,
    body := "world".toList, user_id := "9".toList, source_url := API_URL,
    processed_at := "P".toList }

/-- A record holding a boolean for `userId` (neither a `str` nor an `int`
value in the data model, but accepted by Python's `isinstance`). -/
def rB : JValue :=
  .obj [("id".toList, .int 1), ("title".toList, .str ("t".toList)),
        ("body".toList, .str ("b".toList)), ("userId".toList, .bool true)]

/-- The normalized record `process_data` produces from `rB`. -/
def c5rec : NormalizedRecord :=
  { id := "1".toList, timestamp := "T".toList, title := "t".toList, body := "b".toList,
    user_id := "True".toList, source_url := API_URL, processed_at := "P".toList }

/-- A defective field list: the required `body` field is missing. -/
def fsBad : List (PyStr × JValue) :=
  [("id".toList, .int 2), ("title".toList, .str ("x".toList)), ("userId".toList, .int 3)]

/-- A record with a 501-character title and a 2001-character body. -/
def fsLong : List (PyStr × JValue) :=
  [("id".toList, .int 1), ("title".toList, .str (List.replicate 501 'a')),
   ("body".toList, .str (List.replicate 2001 'b')), ("userId".toList, .int 2)]

/-- An environment whose single fetch attempt succeeds in-band with one
malformed (empty-dict) record. -/
def ocC7 : Nat → AttemptOutcome := fun _ => .resp 200 none [JValue.obj []]

/-- Fetch environment for the C7 witness: one in-band success carrying two
records that both fail validation (one empty, one with a null `id`). -/
def ocC7w : Nat → AttemptOutcome :=
  fun _ => .resp 200 none [JValue.obj [], JValue.obj [("id".toList, JValue.null)]]

/-- A record whose four required fields are all booleans. -/
def fs10 : List (PyStr × JValue) :=
  [("id".toList, .bool true), ("title".toList, .bool false),
   ("body".toList, .bool true), ("userId".toList, .bool false)]

/-! ### Basic lemmas -/

theorem natDigitsAux_ne_nil (fuel n : Nat) : natDigitsAux (fuel+1) n ≠ [] := by
  unfold natDigitsAux
  split
  · simp
  · simp

theorem natStr_ne_nil (n : Nat) : natStr n ≠ [] := by
  unfold natStr
  exact natDigitsAux_ne_nil n n

theorem intStr_ne_nil (n : Int) : intStr n ≠ [] := by
  unfold intStr
  split
  · simp
  · exact natStr_ne_nil _

theorem boolStr_ne_nil (b : Bool) : boolStr b ≠ [] := by
  cases b <;> decide

theorem validateFields_obj (fs : List (PyStr × JValue)) (req : List PyStr) :
    validateFields (.obj fs) req = .ok (req.all (fieldOk fs)) := by
  induction req with
  | nil => rfl
  | cons f rest ih =>
    cases hl : lookupField fs f with
    | none => simp [validateFields, pyIn, hl, pyDictGet, fieldOk]
    | some v =>
      cases hv : isStrIntB v <;>
        simp [validateFields, pyIn, hl, pySubscript, pyDictGet, fieldOk, hv, ih]

theorem validate_item_obj (fs : List (PyStr × JValue)) :
    validate_item (.obj fs) = .ok (allOk fs) :=
  validateFields_obj fs requiredFields

theorem validate_nonobj (item : JValue) (h : isObjB item = false) :
    ∃ e, validate_item item = .error e := by
  cases item with
  | obj fs => simp [isObjB] at h
  | str s =>
    cases hc : substrB ("id".toList) s
    · refine ⟨.attributeError, ?_⟩
      simp at hc
      simp [validate_item, validateFields, requiredFields, pyIn, pyDictGet, hc]
    · refine ⟨.typeError, ?_⟩
      simp at hc
      simp [validate_item, validateFields, requiredFields, pyIn, pySubscript, hc]
  | arr xs =>
    cases hc : xs.any fun v => match v with | .str s => s == "id".toList | _ => false
    · refine ⟨.attributeError, ?_⟩
      simp at hc
      simp [validate_item, validateFields, requiredFields, pyIn, pyDictGet, hc]
      intro x hx hmatch
      simp [hc x hx] at hmatch
    · refine ⟨.typeError, ?_⟩
      simp at hc
      simp [validate_item, validateFields, requiredFields, pyIn, pySubscript, hc]
  | int n => exact ⟨.typeError, by simp [validate_item, validateFields, requiredFields, pyIn]⟩
  | bool b => exact ⟨.typeError, by simp [validate_item, validateFields, requiredFields, pyIn]⟩
  | null => exact ⟨.typeError, by simp [validate_item, validateFields, requiredFields, pyIn]⟩

theorem validate_ok_obj (item : JValue) (b : Bool) (h : validate_item item = .ok b) :
    ∃ fs, item = JValue.obj fs := by
  cases item with
  | obj fs => exact ⟨fs, rfl⟩
  | str s => obtain ⟨e, he⟩ := validate_nonobj (.str s) rfl; rw [he] at h; simp at h
  | arr xs => obtain ⟨e, he⟩ := validate_nonobj (.arr xs) rfl; rw [he] at h; simp at h
  | int n => obtain ⟨e, he⟩ := validate_nonobj (.int n) rfl; rw [he] at h; simp at h
  | bool c => obtain ⟨e, he⟩ := validate_nonobj (.bool c) rfl; rw [he] at h; simp at h
  | null => obtain ⟨e, he⟩ := validate_nonobj .null rfl; rw [he] at h; simp at h

theorem fieldOk_some (fs : List (PyStr × JValue)) (f : PyStr) (h : fieldOk fs f = true) :
    ∃ v, lookupField fs f = some v ∧ isStrIntB v = true := by
  unfold fieldOk at h
  split at h
  · next v hv => exact ⟨v, hv, h⟩
  · exact absurd h (by simp)

theorem allOk_parts (fs : List (PyStr × JValue)) (h : allOk fs = true) :
    fieldOk fs ("id".toList) = true ∧ fieldOk fs ("title".toList) = true ∧
    fieldOk fs ("body".toList) = true ∧ fieldOk fs ("userId".toList) = true := by
  simp [allOk, requiredFields, Bool.and_eq_true] at h
  exact ⟨h.1, h.2.1, h.2.2.1, h.2.2.2⟩

theorem transform_allOk (t1 t2 : PyStr) (fs : List (PyStr × JValue)) (h : allOk fs = true) :
    transform_item t1 t2 (.obj fs) = .ok (mkRec t1 t2 fs) := by
  obtain ⟨h1, h2, h3, h4⟩ := allOk_parts fs h
  obtain ⟨v1, hv1, _⟩ := fieldOk_some fs _ h1
  obtain ⟨v2, hv2, _⟩ := fieldOk_some fs _ h2
  obtain ⟨v3, hv3, _⟩ := fieldOk_some fs _ h3
  obtain ⟨v4, hv4, _⟩ := fieldOk_some fs _ h4
  simp at hv1 hv2 hv3 hv4
  simp [transform_item, pySubscript, hv1, hv2, hv3, hv4, mkRec, getF]

theorem process_go_ok_all_obj (ts : Nat → PyStr × PyStr) :
    ∀ (l : List JValue) (i : Nat) (acc : List NormalizedRecord) (inv : Nat)
      (out : List NormalizedRecord × Nat),
      process_go ts i l acc inv = .ok out → ∀ x ∈ l, isObjB x = true := by
  intro l
  induction l with
  | nil => intro i acc inv out _ x hx; simp at hx
  | cons item rest ih =>
    intro i acc inv out h x hx
    cases hv : validate_item item with
    | error e => simp [process_go, hv] at h
    | ok b =>
      have hob : isObjB item = true := by
        cases hob2 : isObjB item
        · obtain ⟨e, he⟩ := validate_nonobj item hob2
          rw [he] at hv
          simp at hv
        · rfl
      rcases List.mem_cons.mp hx with rfl | hx2
      · exact hob
      · cases b with
        | false => exact ih (i+1) acc (inv+1) out (by simpa [process_go, hv] using h) x hx2
        | true =>
          cases ht : transform_item (ts i).1 (ts i).2 item with
          | error e => simp [process_go, hv, ht] at h
          | ok r => exact ih (i+1) (r :: acc) inv out (by simpa [process_go, hv, ht] using h) x hx2

theorem process_go_spec (ts : Nat → PyStr × PyStr) :
    ∀ (l : List JValue) (i : Nat) (acc : List NormalizedRecord) (inv : Nat),
      (∀ x ∈ l, isObjB x = true) →
      process_go ts i l acc inv = .ok (acc.reverse ++ acceptedOf ts i l, inv + rejectedOf l) := by
  intro l
  induction l with
  | nil => intro i acc inv _; simp [process_go, acceptedOf, rejectedOf]
  | cons item rest ih =>
    intro i acc inv h
    have hob := h item (List.mem_cons_self item rest)
    have htail : ∀ x ∈ rest, isObjB x = true := fun x hx => h x (List.mem_cons_of_mem _ hx)
    obtain ⟨fs, rfl⟩ : ∃ fs, item = JValue.obj fs := by
      cases item <;> first | exact ⟨_, rfl⟩ | simp [isObjB] at hob
    cases hok : allOk fs with
    | false =>
      simp [process_go, validate_item_obj, hok, acceptedOf, rejectedOf,
        ih (i+1) acc (inv+1) htail, Nat.add_assoc]
    | true =>
      simp [process_go, validate_item_obj, hok, transform_allOk (ts i).1 (ts i).2 fs hok,
        acceptedOf, rejectedOf, ih (i+1) (mkRec (ts i).1 (ts i).2 fs :: acc) inv htail]

theorem process_data_all_obj (ts : Nat → PyStr × PyStr) (raw : List JValue)
    (out : List NormalizedRecord × Nat) (h : process_data ts raw = .ok out) :
    ∀ x ∈ raw, isObjB x = true :=
  process_go_ok_all_obj ts raw 0 [] 0 out h

theorem process_data_spec (ts : Nat → PyStr × PyStr) (raw : List JValue)
    (h : ∀ x ∈ raw, isObjB x = true) :
    process_data ts raw = .ok (acceptedOf ts 0 raw, rejectedOf raw) := by
  simpa [process_data] using process_go_spec ts raw 0 [] 0 h

theorem mem_acceptedOf (ts : Nat → PyStr × PyStr) :
    ∀ (l : List JValue) (i : Nat) (rec : NormalizedRecord), rec ∈ acceptedOf ts i l →
      ∃ j fs, l.get? j = some (JValue.obj fs) ∧ allOk fs = true ∧
        rec = mkRec (ts (i+j)).1 (ts (i+j)).2 fs := by
  intro l
  induction l with
  | nil => intro i rec h; simp [acceptedOf] at h
  | cons item rest ih =>
    intro i rec h
    cases item with
    | obj fs =>
      cases hok : allOk fs with
      | true =>
        rw [acceptedOf, if_pos hok] at h
        rcases List.mem_cons.mp h with rfl | h2
        · exact ⟨0, fs, rfl, hok, by simp⟩
        · obtain ⟨j, fs', hg, ha, hr⟩ := ih (i+1) rec h2
          refine ⟨j+1, fs', by simpa using hg, ha, ?_⟩
          rw [show i + (j+1) = i + 1 + j from by omega]
          exact hr
      | false =>
        rw [acceptedOf, if_neg (by simp [hok])] at h
        obtain ⟨j, fs', hg, ha, hr⟩ := ih (i+1) rec h
        refine ⟨j+1, fs', by simpa using hg, ha, ?_⟩
        rw [show i + (j+1) = i + 1 + j from by omega]
        exact hr
    | str s =>
      rw [show acceptedOf ts i (JValue.str s :: rest) = acceptedOf ts (i+1) rest from rfl] at h
      obtain ⟨j, fs', hg, ha, hr⟩ := ih (i+1) rec h
      refine ⟨j+1, fs', by simpa using hg, ha, ?_⟩
      rw [show i + (j+1) = i + 1 + j from by omega]
      exact hr
    | int n =>
      rw [show acceptedOf ts i (JValue.int n :: rest) = acceptedOf ts (i+1) rest from rfl] at h
      obtain ⟨j, fs', hg, ha, hr⟩ := ih (i+1) rec h
      refine ⟨j+1, fs', by simpa using hg, ha, ?_⟩
      rw [show i + (j+1) = i + 1 + j from by omega]
      exact hr
    | bool b =>
      rw [show acceptedOf ts i (JValue.bool b :: rest) = acceptedOf ts (i+1) rest from rfl] at h
      obtain ⟨j, fs', hg, ha, hr⟩ := ih (i+1) rec h
      refine ⟨j+1, fs', by simpa using hg, ha, ?_⟩
      rw [show i + (j+1) = i + 1 + j from by omega]
      exact hr
    | null =>
      rw [show acceptedOf ts i (JValue.null :: rest) = acceptedOf ts (i+1) rest from rfl] at h
      obtain ⟨j, fs', hg, ha, hr⟩ := ih (i+1) rec h
      refine ⟨j+1, fs', by simpa using hg, ha, ?_⟩
      rw [show i + (j+1) = i + 1 + j from by omega]
      exact hr
    | arr xs =>
      rw [show acceptedOf ts i (JValue.arr xs :: rest) = acceptedOf ts (i+1) rest from rfl] at h
      obtain ⟨j, fs', hg, ha, hr⟩ := ih (i+1) rec h
      refine ⟨j+1, fs', by simpa using hg, ha, ?_⟩
      rw [show i + (j+1) = i + 1 + j from by omega]
      exact hr

theorem acceptedOf_append (ts : Nat → PyStr × PyStr) :
    ∀ (l1 l2 : List JValue) (i : Nat),
      acceptedOf ts i (l1 ++ l2) = acceptedOf ts i l1 ++ acceptedOf ts (i + l1.length) l2 := by
  intro l1
  induction l1 with
  | nil => intro l2 i; simp [acceptedOf]
  | cons item rest ih =>
    intro l2 i
    have harith : i + 1 + rest.length = i + (rest.length + 1) := by omega
    cases item with
    | obj fs =>
      cases hok : allOk fs with
      | true => simp [acceptedOf, hok, ih l2 (i+1), harith]
      | false => simp [acceptedOf, hok, ih l2 (i+1), harith]
    | str s => simp [acceptedOf, ih l2 (i+1), harith]
    | int n => simp [acceptedOf, ih l2 (i+1), harith]
    | bool b => simp [acceptedOf, ih l2 (i+1), harith]
    | null => simp [acceptedOf, ih l2 (i+1), harith]
    | arr xs => simp [acceptedOf, ih l2 (i+1), harith]

theorem rejectedOf_append :
    ∀ (l1 l2 : List JValue), rejectedOf (l1 ++ l2) = rejectedOf l1 + rejectedOf l2 := by
  intro l1
  induction l1 with
  | nil => intro l2; simp [rejectedOf]
  | cons item rest ih =>
    intro l2
    cases item with
    | obj fs => simp [rejectedOf, ih l2]; omega
    | str s => simp [rejectedOf, ih l2]
    | int n => simp [rejectedOf, ih l2]
    | bool b => simp [rejectedOf, ih l2]
    | null => simp [rejectedOf, ih l2]
    | arr xs => simp [rejectedOf, ih l2]

theorem fetch_step_of_retries (a : Nat) (e : Option FetchErr) (o : AttemptOutcome)
    (h : stepRetries o = true) : fetch_step a e o = .retry (waitOf a o) (updErr e o) := by
  cases o with
  | resp status ra body =>
    simp [stepRetries] at h
    simp [fetch_step, h, waitOf, updErr, errOf]
  | httpError code ra reason =>
    cases hc : code == 429 <;> simp [fetch_step, hc, waitOf, updErr, errOf]
  | netError msg => simp [fetch_step, waitOf, updErr, errOf]

theorem fetch_go_exhaust (oc : Nat → AttemptOutcome) (M : Nat) :
    ∀ (r j : Nat) (e : Option FetchErr) (w : List Int),
      (∀ a, j ≤ a → a < j + r → stepRetries (oc a) = true) →
      fetch_go oc M r j e w = .exhausted M (errAccum oc e j r) := by
  intro r
  induction r with
  | zero => intro j e w _; rfl
  | succ r ih =>
    intro j e w h
    have hj : stepRetries (oc j) = true := h j (Nat.le_refl j) (by omega)
    show (match fetch_step j e (oc j) with
      | .done recs => FetchResult.success recs j w.reverse
      | .retry w' e' => fetch_go oc M r (j+1) e' (w' :: w)) = _
    rw [fetch_step_of_retries j e (oc j) hj]
    exact ih (j+1) (updErr e (oc j)) _ (fun a h1 h2 => h a (by omega) (by omega))

theorem errAccum_none (oc : Nat → AttemptOutcome) :
    ∀ (r j : Nat) (e : Option FetchErr),
      (∀ a, j ≤ a → a < j + r → errOf (oc a) = none) → errAccum oc e j r = e := by
  intro r
  induction r with
  | zero => intro j e _; rfl
  | succ r ih =>
    intro j e h
    have h0 : errOf (oc j) = none := h j (Nat.le_refl j) (by omega)
    show errAccum oc (updErr e (oc j)) (j+1) r = e
    rw [show updErr e (oc j) = e from by simp [updErr, h0]]
    exact ih (j+1) e (fun a h1 h2 => h a (by omega) (by omega))

theorem errAccum_last (oc : Nat → AttemptOutcome) :
    ∀ (r j k : Nat) (e0 : Option FetchErr) (x : FetchErr),
      errOf (oc k) = some x → j ≤ k → k < j + r →
      (∀ a, k < a → a < j + r → errOf (oc a) = none) →
      errAccum oc e0 j r = some x := by
  intro r
  induction r with
  | zero => intro j k e0 x _ h2 h3 _; omega
  | succ r ih =>
    intro j k e0 x h1 h2 h3 h4
    show errAccum oc (updErr e0 (oc j)) (j+1) r = some x
    by_cases hk : k = j
    · subst hk
      rw [show updErr e0 (oc k) = some x from by simp [updErr, h1]]
      exact errAccum_none oc r (k+1) (some x) (fun a ha1 ha2 => h4 a (by omega) (by omega))
    · exact ih (j+1) k (updErr e0 (oc j)) x h1 (by omega) (by omega)
        (fun a ha1 ha2 => h4 a ha1 (by omega))

/-! ### Claims about the retry/backoff decision (C1, C2) -/

/-- Claim C1, counterexample: at attempt 1, a 429 raised as `HTTPError`
whose response carries the explicit advisory duration `Retry-After: 1`
makes the loop wait `2 ^ 1 = 2` seconds, not the advertised 1 second —
the handler's `except HTTPError` branch never reads the header. -/
theorem fetch_step_http_error_429_ignores_retry_after :
    fetch_step 1 none (.httpError 429 (some 1) ("Too Many Requests".toList)) =
      .retry ((2 : Int) ^ 1) (some (.http 429 ("Too Many Requests".toList))) ∧
    ((2 : Int) ^ 1) ≠ 1 := by
  exact ⟨rfl, by decide⟩

/-- Claim C1, amended: a 429 observed in-band (on a returned response
object) with an explicit `Retry-After` `d` waits exactly `d` seconds and
leaves `last_error` unchanged — the exponential formula is not used; but a
429 raised as an `HTTPError` waits `2 ^ attempt` regardless of any
advisory duration the response carries, and records the error. -/
theorem fetch_step_retry_after_429 (a : Nat) (e : Option FetchErr) (d : Int)
    (body : List JValue) (ra : Option Int) (reason : PyStr) :
    fetch_step a e (.resp 429 (some d) body) = .retry d e ∧
    fetch_step a e (.httpError 429 ra reason) =
      .retry ((2 : Int) ^ a) (some (.http 429 reason)) := by
  exact ⟨rfl, rfl⟩

/-- Claim C2, counterexample: at attempt 1, a rate-limited response
observed in-band with no `Retry-After` header waits the default 5 seconds
taken from `resp.headers.get("Retry-After", 5)`, not `2 ^ 1 = 2`. -/
theorem fetch_step_inband_429_default_wait :
    fetch_step 1 none (.resp 429 none []) = .retry 5 none ∧ (5 : Int) ≠ (2 : Int) ^ 1 := by
  exact ⟨rfl, by decide⟩

/-- Claim C2, amended: at any attempt `a`, a transient error (an
`HTTPError` of any status, or any other exception) waits exactly
`2 ^ a` seconds; a rate-limited signal with no explicit advisory
duration waits `2 ^ a` only when it arrives as an `HTTPError` — observed
in-band it waits the default 5 seconds instead. -/
theorem fetch_step_backoff_waits (a : Nat) (e : Option FetchErr) (code : Nat)
    (ra : Option Int) (reason msg : PyStr) (body : List JValue) :
    fetch_step a e (.netError msg) = .retry ((2 : Int) ^ a) (some (.net msg)) ∧
    fetch_step a e (.httpError code ra reason) =
      .retry ((2 : Int) ^ a) (some (.http code reason)) ∧
    fetch_step a e (.resp 429 none body) = .retry 5 e := by
  refine ⟨rfl, ?_, rfl⟩
  show (if code == 429 then _ else _) = _
  split <;> rfl

/-! ### Claim C8: exhaustion result and the recorded last error -/

/-- Claim C8, counterexample: after exhausting 3 attempts, the terminal
failure's `last_error` is the 429 `HTTPError` from the later attempts,
not the network error from attempt 1 — a 429 raised as `HTTPError` does
contribute to the recorded last error. -/
theorem fetch_exhaustion_429_sets_last_error :
    fetch_data 3 oc8c = .exhausted 3 (some (.http 429 ("Too Many Requests".toList))) ∧
    some (FetchErr.http 429 ("Too Many Requests".toList)) ≠ some (FetchErr.net ("boom".toList)) := by
  exact ⟨rfl, by decide⟩

/-- Claim C8, amended: if every attempt `1..M` continues the loop (no
in-band success), `fetch_data` returns a terminal failure carrying the
attempt count `M` and the error of the most recent attempt `k` that
raised (`HTTPError` — 429 included — or any other exception); attempts
after `k` that only saw in-band 429 responses leave `last_error`
untouched (in-band 429s never record an error, `errOf` is `none` there). -/
theorem fetch_exhaustion_last_error (M k : Nat) (oc : Nat → AttemptOutcome) (x : FetchErr)
    (hretry : ∀ a, a < M → stepRetries (oc (a+1)) = true)
    (hk1 : 1 ≤ k) (hk2 : k ≤ M)
    (hke : errOf (oc k) = some x)
    (hafter : ∀ a, a < M → k < a + 1 → errOf (oc (a+1)) = none) :
    fetch_data M oc = .exhausted M (some x) := by
  unfold fetch_data
  rw [fetch_go_exhaust oc M M 1 none []
    (fun a h1 h2 => by
      have := hretry (a-1) (by omega)
      rwa [show a - 1 + 1 = a from by omega] at this)]
  rw [errAccum_last oc M 1 k none x hke hk1 (by omega)
    (fun a ha1 ha2 => by
      have := hafter (a-1) (by omega) (by omega)
      rwa [show a - 1 + 1 = a from by omega] at this)]

/-- Claim C8, witness: in `oc8w` the last raising attempt is attempt 2
(the `HTTPError` 429); the final in-band 429 does not overwrite it. -/
theorem fetch_exhaustion_last_error_witness :
    errOf (oc8w 2) = some (FetchErr.http 429 ("Too Many".toList)) ∧
    fetch_data 3 oc8w = .exhausted 3 (some (FetchErr.http 429 ("Too Many".toList))) := by
  refine ⟨rfl, ?_⟩
  exact fetch_exhaustion_last_error 3 2 oc8w (FetchErr.http 429 ("Too Many".toList))
    (by decide) (by decide) (by decide) rfl
    (by
      intro a h1 h2
      have ha : a = 2 := by omega
      subst ha
      rfl)

/-! ### Claims about record processing (C3, C4, C5) -/

/-- Claim C3, counterexample: a non-dict element (here the JSON number 0)
makes `process_data` raise — `"id" in item` on an int is a `TypeError` —
so the batch-level claim fails for arbitrary element shapes. -/
theorem process_data_raises_on_non_dict :
    process_data ts0 [JValue.int 0] = .error PyError.typeError := rfl

/-- Claim C3, amended: for every input sequence whose elements are dicts
(the shape `json.loads` yields for this API's records), `process_data`
returns a result and never raises; a malformed dict record is excluded,
not fatal.  (A non-dict element instead raises, see the counterexample.) -/
theorem process_data_total_on_dicts (ts : Nat → PyStr × PyStr) (raw : List JValue)
    (h : ∀ x ∈ raw, isObjB x = true) : ∃ out, process_data ts raw = .ok out :=
  ⟨(acceptedOf ts 0 raw, rejectedOf raw), process_data_spec ts raw h⟩

/-- Claim C3, witness: on a concrete all-dict batch with a malformed
member, `process_data` returns normally. -/
theorem process_data_total_on_dicts_witness :
    (∀ x ∈ rawW3, isObjB x = true) ∧ ∃ out, process_data ts0 rawW3 = .ok out :=
  ⟨by decide, process_data_total_on_dicts ts0 rawW3 (by decide)⟩

/-- Claim C4, counterexample: an input whose `id` is the empty string is
accepted by validation (an empty str is still a str) and transformed into
a NormalizedRecord whose `id` is empty — the non-emptiness invariant fails. -/
theorem accepted_record_empty_id :
    process_data ts0 [recEmptyId] = .ok ([c4rec], 0) ∧ c4rec.id = [] :=
  ⟨rfl, rfl⟩

/-- Claim C4, amended: every NormalizedRecord in the accepted output is
obtained by `transform_item` from an input record that passed validation,
and its `id` is the Python stringification of that record's `id` field;
the `id` is non-empty except when that field is the empty string (it is
always non-empty for int and bool ids). -/
theorem accepted_records_from_validated (ts : Nat → PyStr × PyStr) (raw : List JValue)
    (out : List NormalizedRecord × Nat) (rec : NormalizedRecord)
    (hp : process_data ts raw = .ok out) (hm : rec ∈ out.1) :
    ∃ j fs, raw.get? j = some (JValue.obj fs) ∧ validate_item (JValue.obj fs) = .ok true ∧
      transform_item (ts j).1 (ts j).2 (JValue.obj fs) = .ok rec ∧
      rec.id = pyStr (getF fs ("id".toList)) ∧
      (getF fs ("id".toList) ≠ JValue.str [] → rec.id ≠ []) := by
  have hobj := process_data_all_obj ts raw out hp
  have hspec := process_data_spec ts raw hobj
  rw [hp] at hspec
  have hout : out = (acceptedOf ts 0 raw, rejectedOf raw) := by
    simpa using hspec
  rw [hout] at hm
  obtain ⟨j, fs, hg, hok, hrec⟩ := mem_acceptedOf ts raw 0 rec (by simpa using hm)
  simp at hrec
  refine ⟨j, fs, hg, ?_, ?_, ?_, ?_⟩
  · rw [validate_item_obj, hok]
  · rw [transform_allOk _ _ _ hok, hrec]
  · rw [hrec]
    rfl
  · intro hne
    obtain ⟨hid, _, _, _⟩ := allOk_parts fs hok
    obtain ⟨v, hv, hsi⟩ := fieldOk_some fs _ hid
    simp at hv
    have hgf : getF fs ("id".toList) = v := by simp [getF, hv]
    rw [hrec, show (mkRec (ts j).1 (ts j).2 fs).id = pyStr (getF fs ("id".toList)) from rfl,
      hgf]
    rw [hgf] at hne
    cases v with
    | str s =>
      show s ≠ []
      intro hs
      exact hne (by rw [hs])
    | int n => exact intStr_ne_nil n
    | bool b => exact boolStr_ne_nil b
    | null => simp [isStrIntB] at hsi
    | arr xs => simp [isStrIntB] at hsi
    | obj fs2 => simp [isStrIntB] at hsi

/-- Claim C4, witness: the accepted record produced from `goodRec` is
derived from it via validation and transformation, with `id` = str(1). -/
theorem accepted_records_from_validated_witness :
    process_data ts0 [goodRec] = .ok ([c4wrec], 0) ∧
    ∃ j fs, [goodRec].get? j = some (JValue.obj fs) ∧
      validate_item (JValue.obj fs) = .ok true ∧
      transform_item (ts0 j).1 (ts0 j).2 (JValue.obj fs) = .ok c4wrec ∧
      c4wrec.id = pyStr (getF fs ("id".toList)) ∧
      (getF fs ("id".toList) ≠ JValue.str [] → c4wrec.id ≠ []) :=
  ⟨rfl, accepted_records_from_validated ts0 [goodRec] ([c4wrec], 0) c4wrec rfl (by decide)⟩

/-- Claim C5, counterexample: `rB` holds a non-string/non-integer value
(a boolean) for `userId`, yet it is accepted (rejected count 0, and its
transform appears in the output) because `isinstance(True, int)` is true
in Python — contradicting the claim that such a record is never accepted
and increments the rejected count. -/
theorem bool_valued_record_accepted :
    process_data ts0 [rB] = .ok ([c5rec], 0) ∧ isStrIntB (JValue.bool true) = true :=
  ⟨rfl, rfl⟩

/-- Claim C5, amended: a dict record missing a required field, or holding
a value that is neither a string, an integer, nor a boolean for one
(booleans pass the `isinstance` check as Python ints), fails validation,
contributes nothing to the accepted output, and increments the rejected
count by exactly one. -/
theorem invalid_record_rejected (ts : Nat → PyStr × PyStr) (pre post : List JValue)
    (fs : List (PyStr × JValue))
    (hpre : ∀ x ∈ pre, isObjB x = true) (hpost : ∀ x ∈ post, isObjB x = true)
    (hbad : allOk fs = false) :
    validate_item (.obj fs) = .ok false ∧
    process_data ts (pre ++ JValue.obj fs :: post) =
      .ok (acceptedOf ts 0 pre ++ acceptedOf ts (pre.length + 1) post,
           rejectedOf pre + rejectedOf post + 1) := by
  constructor
  · rw [validate_item_obj, hbad]
  · have hall : ∀ x ∈ (pre ++ JValue.obj fs :: post), isObjB x = true := by
      intro x hx
      rcases List.mem_append.mp hx with h | h
      · exact hpre x h
      · rcases List.mem_cons.mp h with rfl | h
        · rfl
        · exact hpost x h
    rw [process_data_spec ts _ hall, acceptedOf_append, rejectedOf_append]
    simp [acceptedOf, rejectedOf, hbad]
    omega

/-- Claim C5, witness: with one good record before it, the record missing
`body` fails validation, adds nothing to the accepted output, and bumps
the rejected count by exactly one. -/
theorem invalid_record_rejected_witness :
    allOk fsBad = false ∧
    (validate_item (.obj fsBad) = .ok false ∧
     process_data ts0 ([goodRec] ++ JValue.obj fsBad :: []) =
       .ok (acceptedOf ts0 0 [goodRec] ++ acceptedOf ts0 ([goodRec].length + 1) [],
            rejectedOf [goodRec] + rejectedOf [] + 1)) :=
  ⟨by decide, invalid_record_rejected ts0 [goodRec] [] fsBad (by decide) (by decide) (by decide)⟩

/-! ### Claim C6: trim-then-truncate for title and body -/

theorem dropWhile_replicate_no_space (n : Nat) (c : Char) (h : isPySpace c = false) :
    List.dropWhile isPySpace (List.replicate n c) = List.replicate n c := by
  cases n with
  | zero => rfl
  | succ n => rw [List.replicate_succ, List.dropWhile_cons, h]; simp

theorem pyStrip_replicate (n : Nat) (c : Char) (h : isPySpace c = false) :
    pyStrip (List.replicate n c) = List.replicate n c := by
  unfold pyStrip
  rw [dropWhile_replicate_no_space n c h, List.reverse_replicate,
    dropWhile_replicate_no_space n c h, List.reverse_replicate]

/-- Claim C6: for a validated record, the output `title` is the trimmed
input title truncated to 500 characters and the output `body` is the
trimmed input body truncated to 2000 characters; independently, whenever
the trimmed title is longer than 500 characters the output title has
length exactly 500 and is a prefix of the trimmed title, and whenever
the trimmed body is longer than 2000 characters the output body has
length exactly 2000 and is a prefix of the trimmed body (truncation
happens after trimming, measured in characters). -/
theorem transform_truncation (t1 t2 : PyStr) (fs : List (PyStr × JValue)) (tv bv : JValue)
    (hv : validate_item (JValue.obj fs) = .ok true)
    (ht : lookupField fs ("title".toList) = some tv)
    (hb : lookupField fs ("body".toList) = some bv) :
    ∃ rec, transform_item t1 t2 (JValue.obj fs) = .ok rec ∧
      rec.title = (pyStrip (pyStr tv)).take 500 ∧
      rec.body = (pyStrip (pyStr bv)).take 2000 ∧
      (500 < (pyStrip (pyStr tv)).length →
        rec.title.length = 500 ∧ ∃ r, rec.title ++ r = pyStrip (pyStr tv)) ∧
      (2000 < (pyStrip (pyStr bv)).length →
        rec.body.length = 2000 ∧ ∃ r, rec.body ++ r = pyStrip (pyStr bv)) := by
  have hok : allOk fs = true := by
    have hvo := validate_item_obj fs
    rw [hv] at hvo
    exact (Except.ok.inj hvo).symm
  simp at ht hb
  have htf : getF fs ("title".toList) = tv := by simp [getF, ht]
  have hbf : getF fs ("body".toList) = bv := by simp [getF, hb]
  refine ⟨mkRec t1 t2 fs, transform_allOk t1 t2 fs hok, ?_, ?_, ?_, ?_⟩
  · rw [show (mkRec t1 t2 fs).title = (pyStrip (pyStr (getF fs ("title".toList)))).take 500
      from rfl, htf]
  · rw [show (mkRec t1 t2 fs).body = (pyStrip (pyStr (getF fs ("body".toList)))).take 2000
      from rfl, hbf]
  · intro hlt
    constructor
    · rw [show (mkRec t1 t2 fs).title = (pyStrip (pyStr (getF fs ("title".toList)))).take 500
        from rfl, htf, List.length_take]
      omega
    · refine ⟨(pyStrip (pyStr tv)).drop 500, ?_⟩
      rw [show (mkRec t1 t2 fs).title = (pyStrip (pyStr (getF fs ("title".toList)))).take 500
        from rfl, htf, List.take_append_drop]
  · intro hlb
    constructor
    · rw [show (mkRec t1 t2 fs).body = (pyStrip (pyStr (getF fs ("body".toList)))).take 2000
        from rfl, hbf, List.length_take]
      omega
    · refine ⟨(pyStrip (pyStr bv)).drop 2000, ?_⟩
      rw [show (mkRec t1 t2 fs).body = (pyStrip (pyStr (getF fs ("body".toList)))).take 2000
        from rfl, hbf, List.take_append_drop]

/-- Claim C6, witness: on the 501/2001-character record, both length
bounds hold, the transformed title has length 500 and is a prefix of the
trimmed title, and likewise the body at 2000. -/
theorem transform_truncation_witness :
    validate_item (JValue.obj fsLong) = .ok true ∧
    500 < (pyStrip (pyStr (JValue.str (List.replicate 501 'a')))).length ∧
    2000 < (pyStrip (pyStr (JValue.str (List.replicate 2001 'b')))).length ∧
    (∃ rec, transform_item ("T".toList) ("P".toList) (JValue.obj fsLong) = .ok rec ∧
      rec.title = (pyStrip (pyStr (JValue.str (List.replicate 501 'a')))).take 500 ∧
      rec.body = (pyStrip (pyStr (JValue.str (List.replicate 2001 'b')))).take 2000 ∧
      (500 < (pyStrip (pyStr (JValue.str (List.replicate 501 'a')))).length →
        rec.title.length = 500 ∧
        ∃ r, rec.title ++ r = pyStrip (pyStr (JValue.str (List.replicate 501 'a')))) ∧
      (2000 < (pyStrip (pyStr (JValue.str (List.replicate 2001 'b')))).length →
        rec.body.length = 2000 ∧
        ∃ r, rec.body ++ r = pyStrip (pyStr (JValue.str (List.replicate 2001 'b'))))) := by
  have hv : validate_item (JValue.obj fsLong) = .ok true := rfl
  have hlt : 500 < (pyStrip (pyStr (JValue.str (List.replicate 501 'a')))).length := by
    rw [show pyStr (JValue.str (List.replicate 501 'a')) = List.replicate 501 'a' from rfl,
      pyStrip_replicate 501 'a' rfl, List.length_replicate]
    omega
  have hlb : 2000 < (pyStrip (pyStr (JValue.str (List.replicate 2001 'b')))).length := by
    rw [show pyStr (JValue.str (List.replicate 2001 'b')) = List.replicate 2001 'b' from rfl,
      pyStrip_replicate 2001 'b' rfl, List.length_replicate]
    omega
  exact ⟨hv, hlt, hlb, transform_truncation ("T".toList) ("P".toList) fsLong
    (JValue.str (List.replicate 501 'a')) (JValue.str (List.replicate 2001 'b')) hv rfl rfl⟩

/-! ### Claim C7: empty accepted batch fails the run without storing -/

/-- Claim C7, counterexample: the failure reason the handler actually
returns is capitalized "No valid records after validation" (the
`ValueError` message), which differs as a string from the claimed
"no valid records after validation"; the store stage is indeed not
invoked. -/
theorem handler_empty_batch_message_case :
    lambda_handler 3 true ocC7 ts0 =
      ({ statusCode := 500, message := "ERROR".toList, stored := none,
         errMsg := some ("No valid records after validation".toList) }, false) ∧
    "No valid records after validation".toList ≠ "no valid records after validation".toList :=
  ⟨rfl, by decide⟩

/-- Claim C7, amended: whenever the fetch succeeds and processing accepts
zero records, the handler returns a 500 failure whose error message is
exactly "No valid records after validation" (capitalized as in the code),
and the store stage is never invoked in that run. -/
theorem handler_empty_batch_failure (M : Nat) (oc : Nat → AttemptOutcome)
    (ts : Nat → PyStr × PyStr) (raw : List JValue) (a : Nat) (w : List Int)
    (out : List NormalizedRecord × Nat)
    (hf : fetch_data M oc = .success raw a w)
    (hp : process_data ts raw = .ok out)
    (hz : out.1 = []) :
    lambda_handler M true oc ts =
      ({ statusCode := 500, message := "ERROR".toList, stored := none,
         errMsg := some noValidMsg }, false) := by
  obtain ⟨v, inv⟩ := out
  simp at hz
  subst hz
  simp [lambda_handler, hf, hp]

/-- Claim C7, witness: a run in which both fetched records fail validation
ends in the 500 "No valid records after validation" failure with the
store stage not invoked. -/
theorem handler_empty_batch_failure_witness :
    process_data ts0 [JValue.obj [], JValue.obj [("id".toList, JValue.null)]] = .ok ([], 2) ∧
    lambda_handler 3 true ocC7w ts0 =
      ({ statusCode := 500, message := "ERROR".toList, stored := none,
         errMsg := some noValidMsg }, false) :=
  ⟨rfl, handler_empty_batch_failure 3 ocC7w ts0
    [JValue.obj [], JValue.obj [("id".toList, JValue.null)]] 1 [] ([], 2) rfl rfl rfl⟩

/-! ### Claim C9: per-record idempotence modulo timestamps -/

/-- Claim C9: transforming the same validated record at two different
times yields records with identical `id`, `title`, `body`, `user_id`
(and `source_url`), differing only in `timestamp` and `processed_at`,
which take the respective generation times. -/
theorem transform_idempotent_mod_timestamps (item : JValue) (t1 t2 t1' t2' : PyStr)
    (hv : validate_item item = .ok true) :
    ∃ r1 r2, transform_item t1 t2 item = .ok r1 ∧ transform_item t1' t2' item = .ok r2 ∧
      r1.id = r2.id ∧ r1.title = r2.title ∧ r1.body = r2.body ∧
      r1.user_id = r2.user_id ∧ r1.source_url = r2.source_url ∧
      r1.timestamp = t1 ∧ r1.processed_at = t2 ∧
      r2.timestamp = t1' ∧ r2.processed_at = t2' := by
  obtain ⟨fs, rfl⟩ := validate_ok_obj item true hv
  have hok : allOk fs = true := by
    have hvo := validate_item_obj fs
    rw [hv] at hvo
    exact (Except.ok.inj hvo).symm
  exact ⟨mkRec t1 t2 fs, mkRec t1' t2' fs, transform_allOk t1 t2 fs hok,
    transform_allOk t1' t2' fs hok, rfl, rfl, rfl, rfl, rfl, rfl, rfl, rfl, rfl⟩

/-- Claim C9, witness: transforming `goodRec` at times (T1, P1) and
(T2, P2) agrees on everything but the two timestamp fields. -/
theorem transform_idempotent_mod_timestamps_witness :
    validate_item goodRec = .ok true ∧
    ∃ r1 r2, transform_item ("T1".toList) ("P1".toList) goodRec = .ok r1 ∧
      transform_item ("T2".toList) ("P2".toList) goodRec = .ok r2 ∧
      r1.id = r2.id ∧ r1.title = r2.title ∧ r1.body = r2.body ∧
      r1.user_id = r2.user_id ∧ r1.source_url = r2.source_url ∧
      r1.timestamp = "T1".toList ∧ r1.processed_at = "P1".toList ∧
      r2.timestamp = "T2".toList ∧ r2.processed_at = "P2".toList :=
  ⟨rfl, transform_idempotent_mod_timestamps goodRec
    ("T1".toList) ("P1".toList) ("T2".toList) ("P2".toList) rfl⟩

/-! ### Claim C10: boolean-valued required fields -/

theorem pyStrip_boolStr (b : Bool) : pyStrip (boolStr b) = boolStr b := by
  cases b <;> rfl

theorem take500_boolStr (b : Bool) : (boolStr b).take 500 = boolStr b := by
  cases b <;> rfl

theorem take2000_boolStr (b : Bool) : (boolStr b).take 2000 = boolStr b := by
  cases b <;> rfl

/-- Claim C10: a record whose four required fields are all booleans passes
validation (Python's isinstance treats bool as int), and transformation
stringifies each boolean to "True"/"False". -/
theorem bool_fields_validate_and_stringify (fs : List (PyStr × JValue)) (t1 t2 : PyStr)
    (b1 b2 b3 b4 : Bool)
    (h1 : lookupField fs ("id".toList) = some (JValue.bool b1))
    (h2 : lookupField fs ("title".toList) = some (JValue.bool b2))
    (h3 : lookupField fs ("body".toList) = some (JValue.bool b3))
    (h4 : lookupField fs ("userId".toList) = some (JValue.bool b4)) :
    validate_item (JValue.obj fs) = .ok true ∧
    transform_item t1 t2 (JValue.obj fs) =
      .ok { id := boolStr b1, timestamp := t1, title := boolStr b2, body := boolStr b3,
            user_id := boolStr b4, source_url := API_URL, processed_at := t2 } := by
  simp at h1 h2 h3 h4
  have hok : allOk fs = true := by
    simp [allOk, requiredFields, fieldOk, h1, h2, h3, h4, isStrIntB]
  constructor
  · rw [validate_item_obj, hok]
  · rw [transform_allOk t1 t2 fs hok]
    simp [mkRec, getF, h1, h2, h3, h4, pyStr, pyStrip_boolStr, take500_boolStr,
      take2000_boolStr]

/-- Claim C10, witness: the all-boolean record validates and its
transform carries "True"/"False" strings. -/
theorem bool_fields_validate_and_stringify_witness :
    validate_item (JValue.obj fs10) = .ok true ∧
    transform_item ("T".toList) ("P".toList) (JValue.obj fs10) =
      .ok { id := boolStr true, timestamp := "T".toList, title := boolStr false,
            body := boolStr true, user_id := boolStr false, source_url := API_URL,
            processed_at := "P".toList } :=
  bool_fields_validate_and_stringify fs10 ("T".toList) ("P".toList) true false true false
    rfl rfl rfl rfl
